import Mathlib

/-!
Verification development for the fire-severity Analysis/Job lifecycle and
publishing subsystem (repository `burrbd/fire-severity-sa`).

The Python sources are shallowly embedded: pure functions become Lean
functions, stateful code becomes explicit state passing, fallible code
returns `Option`/`Except`, and external effects (S3 uploads, DynamoDB
writes, filesystem reachability) are modelled by explicit worlds and
action traces.  Provider property values and DynamoDB attribute values
are modelled as strings, which is the shape every claim exercises.
-/

namespace FireSeverity

/-! ## Basic string helpers -/

/-- Numeric value of a digit string (caller guarantees all characters are digits). -/
def natOfDigits (cs : List Char) : Nat :=
  cs.foldl (fun acc c => acc * 10 + (c.toNat - 48)) 0

/-- True when the list is a non-empty run of ASCII digits. -/
def allDigits (cs : List Char) : Bool :=
  decide (cs ≠ []) && cs.all Char.isDigit

/-- ASCII alphanumeric test, the character class `[a-zA-Z0-9]` of
`re.sub` in `SAFireMetadata._generate_aoi_id`. -/
def isAsciiAlphaNum (c : Char) : Bool :=
  c.isUpper || c.isLower || c.isDigit

/-- ASCII digit character for a value below ten. -/
def digitChar (n : Nat) : Char :=
  Char.ofNat (48 + n)

/-- Decimal digits of a number, most significant first; the fuel argument
only bounds the recursion depth and never runs out for `fuel = n + 1`. -/
def natDigitsAux : Nat → Nat → List Char → List Char
  | 0, _, acc => acc
  | fuel + 1, n, acc =>
    if n < 10 then digitChar n :: acc
    else natDigitsAux fuel (n / 10) (digitChar (n % 10) :: acc)

/-- Decimal rendering of a natural number. -/
def natDigits (n : Nat) : List Char :=
  natDigitsAux (n + 1) n []

/-- Left-pad a numeral with zeros to the given width, as `strftime` does. -/
def padZeros (width n : Nat) : String :=
  let ds := natDigits n
  String.mk (List.replicate (width - ds.length) '0' ++ ds)

/-- Split a character list at every slash, mirroring how
`datetime.strptime(s, ...)` consumes the literal separators of the
format `%d/%m/%Y`. -/
def splitSlashAux : List Char → List Char → List (List Char)
  | [], acc => [acc.reverse]
  | c :: cs, acc =>
    if c = '/' then acc.reverse :: splitSlashAux cs []
    else splitSlashAux cs (c :: acc)

/-- Fields of a string between slashes. -/
def splitSlash (s : String) : List (List Char) :=
  splitSlashAux s.data []

/-- The fallback of `_generate_aoi_id` for unparseable dates:
`re.sub(r'[^0-9]', '', fire_date)`. -/
def stripNonDigits (s : String) : String :=
  String.mk (s.data.filter Char.isDigit)

/-! ## Gregorian calendar facts used by `datetime.strptime` validation -/

/-- Gregorian leap-year rule, as `datetime` applies it. -/
def isLeapYear (y : Nat) : Bool :=
  y % 4 = 0 && (y % 100 ≠ 0 || y % 400 = 0)

/-- Days in a month of the proleptic Gregorian calendar. -/
def daysInMonth (y m : Nat) : Nat :=
  if m = 2 then (if isLeapYear y then 29 else 28)
  else if m = 4 || m = 6 || m = 9 || m = 11 then 30
  else 31

/-- Parse a fire date with the semantics of
`datetime.strptime(fire_date, '%d/%m/%Y')`: `%d` and `%m` take one or
two digits, `%Y` exactly four, the two separators are literal slashes,
no other characters are accepted, and the triple must be a valid
calendar date (CPython rejects year 0 and days past the month end).
Returns `(day, month, year)` on success. -/
def parseFireDate (s : String) : Option (Nat × Nat × Nat) :=
  match splitSlash s with
  | [ds, ms, ys] =>
    if allDigits ds && ds.length ≤ 2 && allDigits ms && ms.length ≤ 2
        && allDigits ys && ys.length = 4 then
      let d := natOfDigits ds
      let m := natOfDigits ms
      let y := natOfDigits ys
      if 1 ≤ y && 1 ≤ m && m ≤ 12 && 1 ≤ d && d ≤ daysInMonth y m then
        some (d, m, y)
      else none
    else none
  | _ => none

/-- Format a parsed date as `strftime('%Y%m%d')` does. -/
def fmtYYYYMMDD (d m y : Nat) : String :=
  padZeros 4 y ++ padZeros 2 m ++ padZeros 2 d

/-! ## SAFireMetadata (`src/dnbr/fire_metadata.py`) -/

/-- Raw provider properties: an opaque string-keyed mapping whose values
are modelled as strings. -/
abbrev RawProps := List (String × String)

/-- First value bound to a key, the semantics of `dict.get`. -/
def lookupProp : RawProps → String → Option String
  | [], _ => none
  | (k, v) :: rest, key => if k = key then some v else lookupProp rest key

/-- The three constructor arguments of `SAFireMetadata.__init__`; the
derived `_aoi_id` is recomputed by `generateAoiId` rather than stored,
which is observationally identical because `_generate_aoi_id` is a pure
function of these fields. -/
structure SAFireMetadata where
  incident_type : String
  fire_date : String
  raw_properties : RawProps
deriving DecidableEq

/-- ASCII lowercase map, the effect of `str.lower()` on the ASCII range. -/
def toLowerChar (c : Char) : Char :=
  if c.isUpper then Char.ofNat (c.toNat + 32) else c

/-- The per-character substitution
`re.sub(r'[^a-zA-Z0-9]', '_', incident_type.lower())`: every single
non-alphanumeric character becomes one underscore. -/
def pySanitize (s : String) : String :=
  String.mk (s.data.map (fun c =>
    let lc := toLowerChar c
    if isAsciiAlphaNum lc then lc else '_'))

/-- The date component `_generate_aoi_id` computes before branching:
`strftime('%Y%m%d')` of the parsed date, or the digit-stripped raw
string when `strptime` raises `ValueError`. -/
def aoiDateComponent (fire_date : String) : String :=
  match parseFireDate fire_date with
  | some (d, m, y) => fmtYYYYMMDD d m y
  | none => stripNonDigits fire_date

/-- `SAFireMetadata._generate_aoi_id`.  `raw_properties.get('INCIDENTNU')`
is used when present and truthy (a non-empty string); otherwise the id is
the sanitized incident type joined to the date component with an
underscore. -/
def generateAoiId (meta : SAFireMetadata) : String :=
  let dateStr := aoiDateComponent meta.fire_date
  match lookupProp meta.raw_properties "INCIDENTNU" with
  | some v => if v = "" then pySanitize meta.incident_type ++ "_" ++ dateStr else v
  | none => pySanitize meta.incident_type ++ "_" ++ dateStr

/-- `SAFireMetadata.get_id`. -/
def SAFireMetadata.get_id (meta : SAFireMetadata) : String :=
  generateAoiId meta

/-- `SAFireMetadata.get_date`. -/
def SAFireMetadata.get_date (meta : SAFireMetadata) : String :=
  meta.fire_date

/-- `SAFireMetadata.get_provider`. -/
def SAFireMetadata.get_provider (_meta : SAFireMetadata) : String :=
  "sa_fire"

/-! ## Spec-side formulations used to compare against the source -/

/-- Collapse consecutive underscores, so that composing it with the
per-character substitution replaces every maximal run of
non-alphanumeric characters by a single underscore. -/
def squeezeUnderscores : List Char → List Char
  | [] => []
  | [c] => [c]
  | a :: b :: rest =>
    if a = '_' && b = '_' then squeezeUnderscores (b :: rest)
    else a :: squeezeUnderscores (b :: rest)

/-- The sanitizer exactly as the spec words it: lower-case, then replace
every run of non-alphanumeric characters with one underscore.  Stated
only to be compared with `pySanitize`, the sanitizer the source uses. -/
def specSanitizeRuns (s : String) : String :=
  String.mk (squeezeUnderscores ((pySanitize s).data))

/-- The aoi-id formula exactly as the spec words it for records without
an incident number: run-collapsing sanitize of the incident type, an
underscore, and the date component. -/
def specAoiIdNoIncident (incident_type fire_date : String) : String :=
  specSanitizeRuns incident_type ++ "_" ++ aoiDateComponent fire_date

/-- Modelled from the spec: `generate_filename` is called by
`src/dnbr/publisher.py` but its definition is absent from
`src/dnbr/fire_metadata.py` (no method of that name exists under
`src/`).  Spec section 3: returns `<aoiId>_<suffix>` where the suffix is
`dnbr.cog.tif` for "raster", `aoi.geojson` for "vector", or the bare
kind string otherwise. -/
def SAFireMetadata.generate_filename (meta : SAFireMetadata) (kind : String) : String :=
  let suffix :=
    if kind = "raster" then "dnbr.cog.tif"
    else if kind = "vector" then "aoi.geojson"
    else kind
  generateAoiId meta ++ "_" ++ suffix

/-! ## FireMetadata serialization (`to_dict` / `from_dict` / `from_json_data`) -/

/-- The dictionary produced by `SAFireMetadata.to_dict`, with the nested
`provider_metadata` object flattened into the two `pm_` fields. -/
structure FireMetaDict where
  aoi_id : String
  fire_date : String
  provider : String
  pm_incident_type : String
  pm_raw_properties : RawProps
deriving DecidableEq

/-- `SAFireMetadata.to_dict`. -/
def SAFireMetadata.to_dict (meta : SAFireMetadata) : FireMetaDict :=
  { aoi_id := generateAoiId meta
    fire_date := meta.fire_date
    provider := meta.get_provider
    pm_incident_type := meta.incident_type
    pm_raw_properties := meta.raw_properties }

/-- `SAFireMetadata.from_dict`: rebuilds the metadata from the stored
incident type, fire date and raw properties; the stored `aoi_id` is
ignored and recomputed by the constructor. -/
def SAFireMetadata.from_dict (d : FireMetaDict) : SAFireMetadata :=
  { incident_type := d.pm_incident_type
    fire_date := d.fire_date
    raw_properties := d.pm_raw_properties }

/-- `FireMetadata.from_json_data`, the provider registry: dispatches on
the `provider` field and fails with the unknown-provider error
otherwise. -/
def FireMetadata.from_json_data (d : FireMetaDict) : Except String SAFireMetadata :=
  if d.provider = "sa_fire" then Except.ok (SAFireMetadata.from_dict d)
  else Except.error ("Unknown fire metadata provider: " ++ d.provider)

/-! ## DNBRAnalysis (`src/dnbr/analysis.py`) -/

/-- The observable fields of a `DNBRAnalysis`.  The raw-raster location
is one logical field that the repository is mid-way through renaming:
`src/dnbr/analysis.py` stores it as `_raw_raster_path` while
`src/dnbr/publisher.py`, `src/dnbr/jobs.py` and `src/dnbr/job_service.py`
read and write it as `raw_raster_url`; it is modelled once as
`raw_raster_url`.  The fields `job_id` and `source_vector_url` are
referenced throughout `src/` (publisher preconditions, job storage,
tests) but are absent from the `DNBRAnalysis` class body in
`src/dnbr/analysis.py`; they are modelled from the spec, section 3,
which lists `jobId` and `sourceVectorLocation` among the Analysis
fields. -/
structure DNBRAnalysis where
  id : String
  generator_type : String
  fire_metadata : Option SAFireMetadata
  status : String
  created_at : String
  job_id : Option String
  raw_raster_url : Option String
  source_vector_url : Option String
  published_dnbr_raster_url : Option String
  published_vector_url : Option String
deriving DecidableEq

/-- `DNBRAnalysis.__init__`.  The ULID produced by `str(ulid.ULID())`
and the timestamp from `datetime.utcnow()` are threaded in explicitly as
`freshId` and `now`.  The `job_id` keyword parameter is modelled from
the spec (section 3: jobId is an optional back-reference set at
construction by the batch jobs in `src/dnbr/jobs.py`); the class body in
`src/dnbr/analysis.py` predates it. -/
def mkAnalysis (freshId now : String) (generator_type : String)
    (fire_metadata : Option SAFireMetadata) (job_id : Option String) : DNBRAnalysis :=
  { id := freshId
    generator_type := generator_type
    fire_metadata := fire_metadata
    status := "PENDING"
    created_at := now
    job_id := job_id
    raw_raster_url := none
    source_vector_url := none
    published_dnbr_raster_url := none
    published_vector_url := none }

/-- Modelled from the spec: `get_aoi_id` is called by
`src/dnbr/publisher.py`, `src/dnbr/job_service.py` and the tests but is
absent from `src/dnbr/analysis.py` (which has the older `get_fire_id`
with the same body); per spec sections 3 and 4.5 it is the fire
metadata's aoiId when metadata is present and absent otherwise. -/
def DNBRAnalysis.get_aoi_id (a : DNBRAnalysis) : Option String :=
  a.fire_metadata.map SAFireMetadata.get_id

/-- `DNBRAnalysis.get_fire_date`. -/
def DNBRAnalysis.get_fire_date (a : DNBRAnalysis) : Option String :=
  a.fire_metadata.map SAFireMetadata.get_date

/-- `DNBRAnalysis.get_provider`. -/
def DNBRAnalysis.get_provider (a : DNBRAnalysis) : Option String :=
  a.fire_metadata.map SAFireMetadata.get_provider

/-- Modelled from the spec: `get_job_id` is called by
`src/dnbr/publisher.py` but absent from `src/dnbr/analysis.py`; it reads
the `job_id` back-reference. -/
def DNBRAnalysis.get_job_id (a : DNBRAnalysis) : Option String :=
  a.job_id

/-- `DNBRAnalysis.set_status`: an unconditional overwrite. -/
def DNBRAnalysis.set_status (a : DNBRAnalysis) (status : String) : DNBRAnalysis :=
  { a with status := status }

/-- Python truthiness of an optional string: `None` and the empty string
are falsy. -/
def optTruthy (v : Option String) : Bool :=
  v.getD "" ≠ ""

/-- The JSON document written by `DNBRAnalysis.to_json`, structurally.
Note which fields the source serializes: the job back-reference and the
source-vector location are not among them. -/
structure AnalysisJson where
  id : String
  generator_type : String
  fire_metadata : Option FireMetaDict
  status : String
  created_at : String
  raw_raster_path : Option String
  published_dnbr_raster_url : Option String
  published_vector_url : Option String
deriving DecidableEq

/-- `DNBRAnalysis.to_json`. -/
def DNBRAnalysis.to_json (a : DNBRAnalysis) : AnalysisJson :=
  { id := a.id
    generator_type := a.generator_type
    fire_metadata := a.fire_metadata.map SAFireMetadata.to_dict
    status := a.status
    created_at := a.created_at
    raw_raster_path := a.raw_raster_url
    published_dnbr_raster_url := a.published_dnbr_raster_url
    published_vector_url := a.published_vector_url }

/-- `DNBRAnalysis.from_json`: reconstructs the fire metadata through the
provider registry (failing on an unknown provider), constructs a fresh
analysis and overrides id, status, created_at and the serialized
locations with the stored values.  The constructor's fresh ULID and
timestamp are overwritten by the stored ones, and the fields the record
does not carry (`job_id`, `source_vector_url`) keep the constructor's
defaults, so the result is written directly. -/
def DNBRAnalysis.from_json (j : AnalysisJson) : Except String DNBRAnalysis := do
  let fm ← match j.fire_metadata with
    | none => pure none
    | some d => do
      let m ← FireMetadata.from_json_data d
      pure (some m)
  pure
    { id := j.id
      generator_type := j.generator_type
      fire_metadata := fm
      status := j.status
      created_at := j.created_at
      job_id := none
      raw_raster_url := j.raw_raster_path
      source_vector_url := none
      published_dnbr_raster_url := j.published_dnbr_raster_url
      published_vector_url := j.published_vector_url }

/-! ## GEEAnalysis (`src/dnbr/gee_analysis.py`) -/

/-- `GEEAnalysis.__init__`: calls the base constructor with its defaults
(generator type "unknown", no fire metadata) and then overwrites the
status with "SUBMITTED". -/
def mkGEEAnalysis (freshId now : String) : DNBRAnalysis :=
  { mkAnalysis freshId now "unknown" none none with status := "SUBMITTED" }

/-! ## DNBRAnalysisJob (`src/dnbr/job.py`) -/

/-- The observable fields of a `DNBRAnalysisJob`. -/
structure DNBRAnalysisJob where
  id : String
  generator_type : String
  created_at : String
  analyses : List DNBRAnalysis
deriving DecidableEq

/-- `DNBRAnalysisJob.__init__` with the ULID and timestamp threaded in. -/
def mkJob (freshId now : String) (generator_type : String) : DNBRAnalysisJob :=
  { id := freshId, generator_type := generator_type, created_at := now, analyses := [] }

/-- `DNBRAnalysisJob.add_analysis`: sets the child's `job_id`
back-reference, then appends it. -/
def DNBRAnalysisJob.add_analysis (j : DNBRAnalysisJob) (a : DNBRAnalysis) : DNBRAnalysisJob :=
  { j with analyses := j.analyses ++ [{ a with job_id := some j.id }] }

/-- `DNBRAnalysisJob.get_analysis_count`. -/
def DNBRAnalysisJob.get_analysis_count (j : DNBRAnalysisJob) : Nat :=
  j.analyses.length

/-- `DNBRAnalysisJob.get_completed_analyses`. -/
def DNBRAnalysisJob.get_completed_analyses (j : DNBRAnalysisJob) : List DNBRAnalysis :=
  j.analyses.filter (fun a => a.status = "COMPLETED")

/-- `DNBRAnalysisJob.get_pending_analyses`. -/
def DNBRAnalysisJob.get_pending_analyses (j : DNBRAnalysisJob) : List DNBRAnalysis :=
  j.analyses.filter (fun a => a.status = "PENDING")

/-- `DNBRAnalysisJob.get_failed_analyses`. -/
def DNBRAnalysisJob.get_failed_analyses (j : DNBRAnalysisJob) : List DNBRAnalysis :=
  j.analyses.filter (fun a => a.status = "FAILED")

/-- `DNBRAnalysisJob.is_complete`: `all(status == "COMPLETED")`. -/
def DNBRAnalysisJob.is_complete (j : DNBRAnalysisJob) : Bool :=
  j.analyses.all (fun a => a.status = "COMPLETED")

/-- `DNBRAnalysisJob.is_failed`: `any(status == "FAILED")`. -/
def DNBRAnalysisJob.is_failed (j : DNBRAnalysisJob) : Bool :=
  j.analyses.any (fun a => a.status = "FAILED")

/-! ## Publisher (`src/dnbr/publisher.py`)

External effects are modelled by a `PublishWorld` (which local paths
exist, whether the COG transcode succeeds, which S3 operations succeed)
and a trace of the S3 operations that completed before the outcome. -/

/-- One completed S3 side effect. -/
inductive S3Action where
  | uploadFile (localPath bucket key : String)
  | putObject (bucket key : String)
deriving DecidableEq

/-- The S3 operation whose failure aborted a publish; the cause carried
by the `RuntimeError` that `publish_analysis` raises from its `except`
clause. -/
inductive UploadFailure where
  | uploadFailed (key : String)
  | putFailed (key : String)
deriving DecidableEq

/-- Every way `S3AnalysisPublisher.publish_analysis` can fail.  The first
six constructors are the `ValueError`/`FileNotFoundError` precondition
failures, raised in source order with distinct messages.
`cogGenerationFailed` is an error raised inside
`_generate_cog_from_file`, which the source calls before entering its
`try` block, so it propagates unwrapped.  `publishFailed` is the
`RuntimeError("Failed to publish analysis to S3: ...")` wrapper around
a failure inside the `try` block. -/
inductive PublishError where
  | statusNotCompleted (status : String)
  | noAoiId
  | noRawRaster
  | noSourceVector
  | rawRasterNotFound (path : String)
  | sourceVectorNotFound (path : String)
  | cogGenerationFailed (path : String)
  | publishFailed (cause : UploadFailure)
deriving DecidableEq

/-- True exactly on the six precondition failures. -/
def isPrecondFailure : PublishError → Bool
  | .statusNotCompleted _ => true
  | .noAoiId => true
  | .noRawRaster => true
  | .noSourceVector => true
  | .rawRasterNotFound _ => true
  | .sourceVectorNotFound _ => true
  | _ => false

/-- True exactly on the wrapped `PublishFailed` error. -/
def isPublishFailed : PublishError → Bool
  | .publishFailed _ => true
  | _ => false

/-- The environment a publish runs against: `reachable` is the set of
paths for which `os.path.exists` holds, `cogResult` gives the temp-file
path produced by `_generate_cog_from_file` or `none` when the transcode
raises, and `uploadOk`/`putOk` say which S3 keys `upload_file` and
`put_object` accept. -/
structure PublishWorld where
  reachable : List String
  cogResult : String → Option String
  uploadOk : String → Bool
  putOk : String → Bool

/-- Result, updated analysis, and completed S3 actions of one publish. -/
structure PublishOutcome where
  result : Except PublishError (List String)
  analysis : DNBRAnalysis
  actions : List S3Action

/-- The scope id of the storage layout:
`analysis.get_job_id() or analysis.get_id()`, so the owning job's id
when the back-reference is present and truthy, else the analysis id. -/
def scopeId (a : DNBRAnalysis) : String :=
  match a.job_id with
  | some j => if j = "" then a.id else j
  | none => a.id

/-- The storage key prefix `jobs/<scopeId>/<aoiId>` that
`publish_analysis` derives for both artifact uploads. -/
def storageKeyBase (a : DNBRAnalysis) : String :=
  "jobs/" ++ scopeId a ++ "/" ++ (a.get_aoi_id.getD "")

/-- The `job_prefix` string of the source, written with the metadata in
hand: `jobs/<scopeId>/<aoiId>`. -/
def jobsKeyBase (a : DNBRAnalysis) (fm : SAFireMetadata) : String :=
  "jobs/" ++ scopeId a ++ "/" ++ generateAoiId fm

/-- The raster upload key `job_prefix/<raster_filename>`. -/
def rasterKeyOf (a : DNBRAnalysis) (fm : SAFireMetadata) : String :=
  jobsKeyBase a fm ++ "/" ++ fm.generate_filename "raster"

/-- The vector upload key `job_prefix/<vector_filename>`. -/
def vectorKeyOf (a : DNBRAnalysis) (fm : SAFireMetadata) : String :=
  jobsKeyBase a fm ++ "/" ++ fm.generate_filename "vector"

/-- The STAC item key `stac/items/<scopeId>/<aoiId>.json`. -/
def stacItemKeyOf (a : DNBRAnalysis) (fm : SAFireMetadata) : String :=
  "stac/items/" ++ scopeId a ++ "/" ++ generateAoiId fm ++ ".json"

/-- The fixed STAC collection key. -/
def collectionKey : String :=
  "stac/collections/fires.json"

/-- The `s3://<bucket>/<key>` URL shape of the published artifacts. -/
def pubUrl (bucket key : String) : String :=
  "s3://" ++ bucket ++ "/" ++ key

/-- The body of the source's `try` block once the COG exists: upload the
transcoded raster and the source vector under the derived keys, write
the STAC item, overwrite the STAC collection pointer, and only then set
the two published-URL fields on the analysis.  A failing operation
aborts with the wrapped `PublishFailed` error carrying the failing
operation, leaving the analysis untouched and only the earlier
operations performed. -/
def publishUploads (w : PublishWorld) (bucket : String) (a : DNBRAnalysis)
    (fm : SAFireMetadata) (cogPath : String) : PublishOutcome :=
  if ¬ w.uploadOk (rasterKeyOf a fm) then
    ⟨.error (.publishFailed (.uploadFailed (rasterKeyOf a fm))), a, []⟩
  else if ¬ w.uploadOk (vectorKeyOf a fm) then
    ⟨.error (.publishFailed (.uploadFailed (vectorKeyOf a fm))), a,
      [.uploadFile cogPath bucket (rasterKeyOf a fm)]⟩
  else if ¬ w.putOk (stacItemKeyOf a fm) then
    ⟨.error (.publishFailed (.putFailed (stacItemKeyOf a fm))), a,
      [.uploadFile cogPath bucket (rasterKeyOf a fm),
        .uploadFile (a.source_vector_url.getD "") bucket (vectorKeyOf a fm)]⟩
  else if ¬ w.putOk collectionKey then
    ⟨.error (.publishFailed (.putFailed collectionKey)), a,
      [.uploadFile cogPath bucket (rasterKeyOf a fm),
        .uploadFile (a.source_vector_url.getD "") bucket (vectorKeyOf a fm),
        .putObject bucket (stacItemKeyOf a fm)]⟩
  else
    ⟨.ok [pubUrl bucket (rasterKeyOf a fm), pubUrl bucket (vectorKeyOf a fm)],
      { a with published_dnbr_raster_url := some (pubUrl bucket (rasterKeyOf a fm)),
               published_vector_url := some (pubUrl bucket (vectorKeyOf a fm)) },
      [.uploadFile cogPath bucket (rasterKeyOf a fm),
        .uploadFile (a.source_vector_url.getD "") bucket (vectorKeyOf a fm),
        .putObject bucket (stacItemKeyOf a fm),
        .putObject bucket collectionKey]⟩

/-- `S3AnalysisPublisher.publish_analysis`, in source order: six
precondition checks (status, aoi id, the two locations present judged
by Python truthiness, the two paths reachable), then the COG transcode
outside the `try` block — whose failure therefore propagates unwrapped —
then the `try` block body `publishUploads`.  The `fire_metadata = none`
arm after the checks is unreachable because a truthy aoi id requires
metadata to be present (Python reads `analysis.fire_metadata` at that
point without checking it again). -/
def publish_analysis (w : PublishWorld) (bucket : String) (a : DNBRAnalysis) : PublishOutcome :=
  if a.status ≠ "COMPLETED" then ⟨.error (.statusNotCompleted a.status), a, []⟩
  else if ¬ optTruthy a.get_aoi_id then ⟨.error .noAoiId, a, []⟩
  else if ¬ optTruthy a.raw_raster_url then ⟨.error .noRawRaster, a, []⟩
  else if ¬ optTruthy a.source_vector_url then ⟨.error .noSourceVector, a, []⟩
  else if a.raw_raster_url.getD "" ∉ w.reachable then
    ⟨.error (.rawRasterNotFound (a.raw_raster_url.getD "")), a, []⟩
  else if a.source_vector_url.getD "" ∉ w.reachable then
    ⟨.error (.sourceVectorNotFound (a.source_vector_url.getD "")), a, []⟩
  else
    match w.cogResult (a.raw_raster_url.getD "") with
    | none => ⟨.error (.cogGenerationFailed (a.raw_raster_url.getD "")), a, []⟩
    | some cogPath =>
      match a.fire_metadata with
      | none => ⟨.error .noAoiId, a, []⟩
      | some fm => publishUploads w bucket a fm cogPath

/-- The first failing precondition in the order the source checks them:
status, aoi id, raw-raster presence, source-vector presence, raw-raster
reachability, source-vector reachability.  Presence of both locations is
checked before reachability of either. -/
def firstPrecondFailure (reachable : List String) (a : DNBRAnalysis) : Option PublishError :=
  if a.status ≠ "COMPLETED" then some (.statusNotCompleted a.status)
  else if ¬ optTruthy a.get_aoi_id then some .noAoiId
  else if ¬ optTruthy a.raw_raster_url then some .noRawRaster
  else if ¬ optTruthy a.source_vector_url then some .noSourceVector
  else if a.raw_raster_url.getD "" ∉ reachable then
    some (.rawRasterNotFound (a.raw_raster_url.getD ""))
  else if a.source_vector_url.getD "" ∉ reachable then
    some (.sourceVectorNotFound (a.source_vector_url.getD ""))
  else none

/-! ## Metadata store (`src/dnbr/analysis_service.py`, `src/dnbr/job_service.py`)

DynamoDB is modelled as a table of string-keyed items whose attributes
are flat string fields; `update_item` with a `SET` expression merges the
given field subset into the addressed item, creating it when absent, as
DynamoDB `UpdateItem` does. -/

/-- A stored item: attribute name to attribute value. -/
abbrev Item := List (String × String)

/-- A table: item key value to item. -/
abbrev Table := List (String × Item)

/-- Value of an attribute of an item. -/
def getField : Item → String → Option String
  | [], _ => none
  | (f, v) :: rest, g => if f = g then some v else getField rest g

/-- Overwrite (or add) one attribute of an item. -/
def setField : Item → String → String → Item
  | [], f, v => [(f, v)]
  | (g, w) :: rest, f, v =>
    if g = f then (f, v) :: rest else (g, w) :: setField rest f v

/-- Apply a `SET` field subset left to right. -/
def applySets (it : Item) (sets : List (String × String)) : Item :=
  sets.foldl (fun acc p => setField acc p.1 p.2) it

/-- Item stored under a key. -/
def lookupItem : Table → String → Option Item
  | [], _ => none
  | (k, it) :: rest, key => if k = key then some it else lookupItem rest key

/-- `update_item` with `UpdateExpression SET ...`: merges the field
subset into the addressed item without reading any other field; when the
key is absent a fresh item holding the key attribute and the set fields
is created. -/
def update_item (t : Table) (keyAttr keyVal : String)
    (sets : List (String × String)) : Table :=
  match t with
  | [] => [(keyVal, applySets [(keyAttr, keyVal)] sets)]
  | (k, it) :: rest =>
    if k = keyVal then (k, applySets it sets) :: rest
    else (k, it) :: update_item rest keyAttr keyVal sets

/-- `AnalysisService.update_analysis_status`:
`SET #status = :status, updated_at = :updated_at`. -/
def update_analysis_status (t : Table) (analysis_id status now : String) : Table :=
  update_item t "analysis_id" analysis_id [("status", status), ("updated_at", now)]

/-- `JobService.update_job_status`: `SET updated_at = :updated_at` only.
The status argument is accepted but unused; the source docstring says
"New status value (not used in current implementation)". -/
def update_job_status (t : Table) (job_id _status now : String) : Table :=
  update_item t "job_id" job_id [("updated_at", now)]

/-! ## Job persistence (`JobService._to_dynamodb_item` / `_from_dynamodb_item`) -/

/-- One embedded child record of a stored job: exactly the eight fields
`_to_dynamodb_item` writes per analysis.  There is no field for the
child's own analysis id. -/
structure AnalysisSummary where
  aoi_id : Option String
  status : String
  raw_raster_url : String
  source_vector_url : String
  published_dnbr_raster_url : String
  published_vector_url : String
  fire_date : String
  provider : String
deriving DecidableEq

/-- The per-child serialization inside `JobService._to_dynamodb_item`:
`aoi_id` is stored as returned (possibly null), the locations with
`or ''` defaults. -/
def summarizeAnalysis (a : DNBRAnalysis) : AnalysisSummary :=
  { aoi_id := a.get_aoi_id
    status := a.status
    raw_raster_url := a.raw_raster_url.getD ""
    source_vector_url := a.source_vector_url.getD ""
    published_dnbr_raster_url := a.published_dnbr_raster_url.getD ""
    published_vector_url := a.published_vector_url.getD ""
    fire_date := a.get_fire_date.getD ""
    provider := a.get_provider.getD "" }

/-- The stored job record. -/
structure JobItem where
  job_id : String
  generator_type : String
  created_at : String
  updated_at : String
  analysis_count : Nat
  analyses : List AnalysisSummary
deriving DecidableEq

/-- `JobService._to_dynamodb_item`. -/
def to_dynamodb_job_item (now : String) (job : DNBRAnalysisJob) : JobItem :=
  { job_id := job.id
    generator_type := job.generator_type
    created_at := job.created_at
    updated_at := now
    analysis_count := job.analyses.length
    analyses := job.analyses.map summarizeAnalysis }

/-- Reconstruction of one child inside `JobService._from_dynamodb_item`:
a fresh `DNBRAnalysis` is constructed (generating a new ULID, threaded
in as `freshId`), its status and locations are overwritten from the
summary, and when both `fire_date` and `provider` are truthy a
substitute `SAFireMetadata` is built with incident type "Bushfire" and
the stored `aoi_id` as incident number (a null stored `aoi_id` becomes a
falsy incident number, observationally the empty string). -/
def rebuildChild (freshId now jobId generator_type : String)
    (s : AnalysisSummary) : DNBRAnalysis :=
  let base := mkAnalysis freshId now generator_type none (some jobId)
  let fm :=
    if s.fire_date ≠ "" ∧ s.provider ≠ "" then
      some (SAFireMetadata.mk "Bushfire" s.fire_date [("INCIDENTNU", s.aoi_id.getD "")])
    else none
  { base with
      status := s.status
      raw_raster_url := some s.raw_raster_url
      source_vector_url := some s.source_vector_url
      published_dnbr_raster_url := some s.published_dnbr_raster_url
      published_vector_url := some s.published_vector_url
      fire_metadata := fm }

/-- `JobService._from_dynamodb_item`: rebuilds the job under its stored
id and timestamp, and reconstructs every child through `rebuildChild`
with a freshly generated id from the supply. -/
def from_dynamodb_job_item (freshIds : Nat → String) (now : String)
    (item : JobItem) : DNBRAnalysisJob :=
  { id := item.job_id
    generator_type := item.generator_type
    created_at := item.created_at
    analyses := item.analyses.enum.map
      (fun p => rebuildChild (freshIds p.1) now item.job_id item.generator_type p.2) }

/-! ## Concrete fixtures shared by witnesses and counterexamples -/

/-- Fire metadata with an incident number, as in the spec's second scenario. -/
def fixMetaIncident : SAFireMetadata :=
  ⟨"Bushfire", "03/12/2019", [("INCIDENTNU", "12345")]⟩

/-- Fire metadata without an incident number, as in the spec's first scenario. -/
def fixMetaPlain : SAFireMetadata :=
  ⟨"Bushfire", "30/12/2019", []⟩

/-! ## C1 — aoi id derivation -/

/-- C1 counterexample: the source sanitizer replaces every single
non-alphanumeric character with an underscore, while the claim's
sanitizer collapses each run into one underscore, so the two disagree on
an incident type containing consecutive specials; and an
incident-number field that is present but empty is ignored by the source
(Python truthiness) while the claim says the aoi id equals that field's
value verbatim. -/
theorem C1_counterexample :
    generateAoiId ⟨"Bush fire!!", "30/12/2019", []⟩ = "bush_fire___20191230"
    ∧ specAoiIdNoIncident "Bush fire!!" "30/12/2019" = "bush_fire__20191230"
    ∧ generateAoiId ⟨"Bush fire!!", "30/12/2019", []⟩
        ≠ specAoiIdNoIncident "Bush fire!!" "30/12/2019"
    ∧ lookupProp [("INCIDENTNU", "")] "INCIDENTNU" = some ""
    ∧ generateAoiId ⟨"Bushfire", "30/12/2019", [("INCIDENTNU", "")]⟩ = "bushfire_20191230"
    ∧ generateAoiId ⟨"Bushfire", "30/12/2019", [("INCIDENTNU", "")]⟩ ≠ "" := by
  refine ⟨by decide, by decide, by decide, by decide, by decide, by decide⟩

/-- C1 (amended): the aoi id equals the incident-number field's value
verbatim when that field is present and non-empty; otherwise it is the
sanitized incident type (lower-cased, every single non-alphanumeric
character replaced by an underscore), an underscore, and the
`yyyymmdd` rendering of the fire date, falling back to stripping all
non-digit characters from the raw string when the date does not parse as
`dd/mm/yyyy`; in particular incident type "Bushfire", fire date
"30/12/2019" and empty raw properties yield "bushfire_20191230". -/
theorem C1_aoi_id_amended (it fd : String) (props : RawProps) :
    (∀ v, lookupProp props "INCIDENTNU" = some v → v ≠ "" →
      generateAoiId ⟨it, fd, props⟩ = v)
    ∧ ((lookupProp props "INCIDENTNU" = none ∨ lookupProp props "INCIDENTNU" = some "") →
      generateAoiId ⟨it, fd, props⟩ = pySanitize it ++ "_" ++ aoiDateComponent fd)
    ∧ (∀ d m y, parseFireDate fd = some (d, m, y) → aoiDateComponent fd = fmtYYYYMMDD d m y)
    ∧ (parseFireDate fd = none → aoiDateComponent fd = stripNonDigits fd)
    ∧ generateAoiId ⟨"Bushfire", "30/12/2019", []⟩ = "bushfire_20191230" := by
  refine ⟨?_, ?_, ?_, ?_, by decide⟩
  · intro v hv hne
    simp [generateAoiId, hv, hne]
  · rintro (h | h) <;> simp [generateAoiId, h]
  · intro d m y h
    simp [aoiDateComponent, h]
  · intro h
    simp [aoiDateComponent, h]

/-- C1 witness: the amended theorem applied to the incident-number
scenario. -/
theorem C1_witness :
    lookupProp [("INCIDENTNU", "12345")] "INCIDENTNU" = some "12345"
    ∧ ("12345" : String) ≠ ""
    ∧ generateAoiId ⟨"Bushfire", "03/12/2019", [("INCIDENTNU", "12345")]⟩ = "12345" :=
  ⟨by decide, by decide,
    (C1_aoi_id_amended "Bushfire" "03/12/2019" [("INCIDENTNU", "12345")]).1 "12345"
      (by decide) (by decide)⟩

/-! ## C5 — serialization round-trips -/

/-- An analysis whose source-vector location is populated. -/
def fixC5Full : DNBRAnalysis :=
  { id := "01HZX0"
    generator_type := "dummy"
    fire_metadata := some fixMetaPlain
    status := "COMPLETED"
    created_at := "2023-01-01T00:00:00"
    job_id := some "JOB-1"
    raw_raster_url := some "data/raw_dnbr.tif"
    source_vector_url := some "data/fire.geojson"
    published_dnbr_raster_url := none
    published_vector_url := none }

/-- An analysis whose optional job and source-vector fields are absent. -/
def fixC5Small : DNBRAnalysis :=
  { id := "01HZX1"
    generator_type := "dummy"
    fire_metadata := some fixMetaIncident
    status := "PENDING"
    created_at := "2023-01-02T00:00:00"
    job_id := none
    raw_raster_url := some "data/raw_dnbr.tif"
    source_vector_url := none
    published_dnbr_raster_url := some "s3://b/r.tif"
    published_vector_url := some "s3://b/v.geojson" }

/-- C5 counterexample: `to_json` does not serialize the source-vector
location (nor the job back-reference), so deserializing the serialized
analysis resets it to absent and the round-trip is not the identity on
an analysis whose source-vector location is populated. -/
theorem C5_counterexample :
    DNBRAnalysis.from_json fixC5Full.to_json
      = Except.ok { fixC5Full with job_id := none, source_vector_url := none }
    ∧ fixC5Full.source_vector_url = some "data/fire.geojson"
    ∧ ({ fixC5Full with job_id := none, source_vector_url := none } : DNBRAnalysis)
        ≠ fixC5Full := by
  refine ⟨rfl, rfl, by decide⟩

/-- C5 (amended): `fromDict(toDict(m)) = m` holds for every
FireMetadata; the Analysis round-trip preserves id, generator type,
status, the raw-raster location, both published URLs, the creation
timestamp and the fire metadata (recursively through the provider
registry), but resets the job back-reference and the source-vector
location, which `to_json` does not serialize; the round-trip is the
identity exactly on analyses whose two unserialized optional fields are
absent. -/
theorem C5_roundtrip_amended (m : SAFireMetadata) (a : DNBRAnalysis) :
    SAFireMetadata.from_dict m.to_dict = m
    ∧ DNBRAnalysis.from_json a.to_json
        = Except.ok { a with job_id := none, source_vector_url := none }
    ∧ (a.job_id = none → a.source_vector_url = none →
        DNBRAnalysis.from_json a.to_json = Except.ok a) := by
  refine ⟨rfl, ?_, ?_⟩
  · cases a with
    | mk id gty fm status created jid rru svu pr pv => cases fm <;> rfl
  · intro h1 h2
    cases a with
    | mk id gty fm status created jid rru svu pr pv =>
      cases fm <;> simp_all <;> rfl

/-- C5 witness: the amended round-trip applied to a concrete analysis
with absent job and source-vector fields, together with the FireMetadata
round-trip at a concrete metadata value. -/
theorem C5_witness :
    fixC5Small.job_id = none
    ∧ fixC5Small.source_vector_url = none
    ∧ DNBRAnalysis.from_json fixC5Small.to_json = Except.ok fixC5Small
    ∧ SAFireMetadata.from_dict fixMetaPlain.to_dict = fixMetaPlain :=
  ⟨rfl, rfl, (C5_roundtrip_amended fixMetaPlain fixC5Small).2.2 rfl rfl,
    (C5_roundtrip_amended fixMetaPlain fixC5Small).1⟩

/-! ## C6 — job aggregate views -/

/-- A completed child analysis. -/
def fixCompleted : DNBRAnalysis :=
  { mkAnalysis "01CMP" "T0" "dummy" (some fixMetaPlain) none with status := "COMPLETED" }

/-- A failed child analysis. -/
def fixFailed : DNBRAnalysis :=
  { mkAnalysis "01FLD" "T0" "dummy" (some fixMetaIncident) none with status := "FAILED" }

/-- C6: `is_complete` holds iff every child has status COMPLETED (so an
empty job is complete), and `is_failed` holds iff some child has status
FAILED (so an empty job is not failed, and a job with one COMPLETED and
one FAILED child is failed and not complete). -/
theorem C6_job_aggregates (j : DNBRAnalysisJob) :
    (j.is_complete = true ↔ ∀ a ∈ j.analyses, a.status = "COMPLETED")
    ∧ (j.is_failed = true ↔ ∃ a ∈ j.analyses, a.status = "FAILED")
    ∧ (j.analyses = [] → j.is_complete = true ∧ j.is_failed = false)
    ∧ (∀ a b, a.status = "COMPLETED" → b.status = "FAILED" → j.analyses = [a, b] →
        j.is_complete = false ∧ j.is_failed = true) := by
  refine ⟨?_, ?_, ?_, ?_⟩
  · simp [DNBRAnalysisJob.is_complete, List.all_eq_true]
  · simp [DNBRAnalysisJob.is_failed, List.any_eq_true]
  · intro h
    simp [DNBRAnalysisJob.is_complete, DNBRAnalysisJob.is_failed, h]
  · intro a b ha hb hj
    constructor
    · simp [DNBRAnalysisJob.is_complete, hj, ha, hb]
    · simp [DNBRAnalysisJob.is_failed, hj, hb]

/-- C6 witness: the aggregate characterization applied to the empty job
and to a concrete job holding one COMPLETED and one FAILED child. -/
theorem C6_witness :
    fixCompleted.status = "COMPLETED"
    ∧ fixFailed.status = "FAILED"
    ∧ (mkJob "J0" "T0" "dummy").is_complete = true
    ∧ (mkJob "J0" "T0" "dummy").is_failed = false
    ∧ ({ mkJob "J6" "T0" "dummy" with
          analyses := [fixCompleted, fixFailed] } : DNBRAnalysisJob).is_complete = false
    ∧ ({ mkJob "J6" "T0" "dummy" with
          analyses := [fixCompleted, fixFailed] } : DNBRAnalysisJob).is_failed = true := by
  have hempty := (C6_job_aggregates (mkJob "J0" "T0" "dummy")).2.2.1 rfl
  have hmixed := (C6_job_aggregates
    { mkJob "J6" "T0" "dummy" with analyses := [fixCompleted, fixFailed] }).2.2.2
    fixCompleted fixFailed rfl rfl rfl
  exact ⟨rfl, rfl, hempty.1, hempty.2, hmixed.1, hmixed.2⟩

/-! ## C8 — filename generation (spec-modelled) -/

/-- C8: `generate_filename` returns the aoi id, an underscore, and the
kind-specific suffix (`dnbr.cog.tif` for raster, `aoi.geojson` for
vector, the bare kind otherwise); the spec's incident-number scenario
produces `12345_dnbr.cog.tif`. -/
theorem C8_generate_filename (m : SAFireMetadata) (kind : String) :
    (kind = "raster" → m.generate_filename kind = generateAoiId m ++ "_" ++ "dnbr.cog.tif")
    ∧ (kind = "vector" → m.generate_filename kind = generateAoiId m ++ "_" ++ "aoi.geojson")
    ∧ (kind ≠ "raster" → kind ≠ "vector" →
        m.generate_filename kind = generateAoiId m ++ "_" ++ kind)
    ∧ fixMetaIncident.generate_filename "raster" = "12345_dnbr.cog.tif" := by
  refine ⟨?_, ?_, ?_, by decide⟩
  · intro h
    simp [SAFireMetadata.generate_filename, h]
  · intro h
    simp [SAFireMetadata.generate_filename, h]
  · intro h1 h2
    simp [SAFireMetadata.generate_filename, h1, h2]

/-- C8 witness: the filename characterization applied to the raster kind
and the incident-number metadata. -/
theorem C8_witness :
    ("raster" : String) = "raster"
    ∧ fixMetaIncident.generate_filename "raster"
        = generateAoiId fixMetaIncident ++ "_" ++ "dnbr.cog.tif" :=
  ⟨rfl, (C8_generate_filename fixMetaIncident "raster").1 rfl⟩

/-! ## C10 — statuses outside the three filtered values -/

/-- C10: a child whose status is none of PENDING, COMPLETED or FAILED is
returned by none of the three filters; a non-empty job all of whose
children carry statuses outside those three values (for example the
SUBMITTED status GEE analyses are constructed with) is neither complete
nor failed, and its three filter counts sum to strictly less than its
analysis count. -/
theorem C10_unlisted_status (j : DNBRAnalysisJob) :
    (∀ a ∈ j.analyses, a.status ≠ "PENDING" → a.status ≠ "COMPLETED" → a.status ≠ "FAILED" →
      a ∉ j.get_completed_analyses ∧ a ∉ j.get_pending_analyses ∧ a ∉ j.get_failed_analyses)
    ∧ (j.analyses ≠ [] →
        (∀ a ∈ j.analyses,
          a.status ≠ "PENDING" ∧ a.status ≠ "COMPLETED" ∧ a.status ≠ "FAILED") →
        j.is_complete = false ∧ j.is_failed = false
        ∧ j.get_completed_analyses.length + j.get_pending_analyses.length
            + j.get_failed_analyses.length < j.get_analysis_count)
    ∧ (∀ i t, (mkGEEAnalysis i t).status = "SUBMITTED") := by
  refine ⟨?_, ?_, fun i t => rfl⟩
  · intro a _ha hp hc hf
    refine ⟨?_, ?_, ?_⟩
    · simp [DNBRAnalysisJob.get_completed_analyses, List.mem_filter, hc]
    · simp [DNBRAnalysisJob.get_pending_analyses, List.mem_filter, hp]
    · simp [DNBRAnalysisJob.get_failed_analyses, List.mem_filter, hf]
  · intro hne hall
    have hcomp : j.get_completed_analyses = [] := by
      simp only [DNBRAnalysisJob.get_completed_analyses, List.filter_eq_nil_iff]
      intro a ha
      simp [(hall a ha).2.1]
    have hpend : j.get_pending_analyses = [] := by
      simp only [DNBRAnalysisJob.get_pending_analyses, List.filter_eq_nil_iff]
      intro a ha
      simp [(hall a ha).1]
    have hfail : j.get_failed_analyses = [] := by
      simp only [DNBRAnalysisJob.get_failed_analyses, List.filter_eq_nil_iff]
      intro a ha
      simp [(hall a ha).2.2]
    refine ⟨?_, ?_, ?_⟩
    · obtain ⟨x, hx⟩ := List.exists_mem_of_ne_nil j.analyses hne
      rw [Bool.eq_false_iff]
      intro hallc
      have := (List.all_eq_true.mp hallc) x hx
      simp [(hall x hx).2.1] at this
    · rw [Bool.eq_false_iff]
      intro hanyf
      obtain ⟨x, hx, hxs⟩ := List.any_eq_true.mp hanyf
      simp [(hall x hx).2.2] at hxs
    · have hlen : 0 < j.analyses.length := List.length_pos.mpr hne
      simp [hcomp, hpend, hfail, DNBRAnalysisJob.get_analysis_count, hlen]

/-- A job holding a single freshly constructed GEE analysis. -/
def fixGEEJob : DNBRAnalysisJob :=
  { mkJob "J10" "T0" "gee" with analyses := [mkGEEAnalysis "01GEE" "T0"] }

/-- C10 witness: the characterization applied to a concrete job holding
one SUBMITTED GEE analysis. -/
theorem C10_witness :
    fixGEEJob.analyses ≠ []
    ∧ (mkGEEAnalysis "01GEE" "T0").status = "SUBMITTED"
    ∧ fixGEEJob.is_complete = false
    ∧ fixGEEJob.is_failed = false
    ∧ fixGEEJob.get_completed_analyses.length + fixGEEJob.get_pending_analyses.length
        + fixGEEJob.get_failed_analyses.length < fixGEEJob.get_analysis_count := by
  have h := (C10_unlisted_status fixGEEJob).2.1 (by decide) (by decide)
  exact ⟨by decide, rfl, h.1, h.2.1, h.2.2⟩

/-! ## C7 — job persistence and child identity -/

/-- Mapping over an enumeration while using only the indices is mapping
over the index range. -/
theorem enum_map_fst_comp {α β : Type} (l : List α) (f : Nat → β) :
    l.enum.map (fun p => f p.1) = (List.range l.length).map f := by
  rw [show (fun p : Nat × α => f p.1) = f ∘ Prod.fst from rfl, ← List.map_map,
    List.enum_map_fst]

/-- Mapping over an enumeration while using only the elements is mapping
over the list itself. -/
theorem enum_map_snd_comp {α β : Type} (l : List α) (f : α → β) :
    l.enum.map (fun p => f p.2) = l.map f := by
  rw [show (fun p : Nat × α => f p.2) = f ∘ Prod.snd from rfl, ← List.map_map,
    List.enum_map_snd]

/-- The child analysis a job stores and later fails to re-identify. -/
def fixC7Child : DNBRAnalysis :=
  { mkAnalysis "01CHILD" "T0" "dummy" (some fixMetaIncident) (some "JOB7") with
      status := "COMPLETED"
      raw_raster_url := some "data/raw_dnbr.tif"
      source_vector_url := some "data/fire.geojson" }

/-- The job whose persistence round-trip is examined. -/
def fixC7Job : DNBRAnalysisJob :=
  { id := "JOB7", generator_type := "dummy", created_at := "T0", analyses := [fixC7Child] }

/-- A deterministic stand-in for the ULID generator used on reload. -/
def fixC7Supply : Nat → String := fun k => "FRESH-" ++ padZeros 1 k

/-- C7 counterexample: storing a job and reloading it hands every child
a freshly generated id; the original child id is not stored in the job
record and is not restored. -/
theorem C7_counterexample :
    fixC7Job.analyses.map (fun a => a.id) = ["01CHILD"]
    ∧ (from_dynamodb_job_item fixC7Supply "T2"
        (to_dynamodb_job_item "T1" fixC7Job)).analyses.map (fun a => a.id) = ["FRESH-0"]
    ∧ (["FRESH-0"] : List String) ≠ ["01CHILD"] := by
  refine ⟨rfl, rfl, by decide⟩

/-- C7 (amended): job serialization stores the full child list inline as
summaries (aoi id, status, locations, fire date, provider — no child
analysis id), preserves the job's own id and creation time across the
round-trip and the number of children and their statuses, but
deserialization constructs each child afresh with a newly generated id
drawn from the ULID supply, so original child analysis ids are not
recoverable from a stored job record. -/
theorem C7_job_persistence_amended (now now2 : String) (freshIds : Nat → String)
    (job : DNBRAnalysisJob) :
    (to_dynamodb_job_item now job).analyses = job.analyses.map summarizeAnalysis
    ∧ (to_dynamodb_job_item now job).analysis_count = job.analyses.length
    ∧ (from_dynamodb_job_item freshIds now2 (to_dynamodb_job_item now job)).id = job.id
    ∧ (from_dynamodb_job_item freshIds now2 (to_dynamodb_job_item now job)).created_at
        = job.created_at
    ∧ (from_dynamodb_job_item freshIds now2 (to_dynamodb_job_item now job)).analyses.map
        (fun a => a.id) = (List.range job.analyses.length).map freshIds
    ∧ (from_dynamodb_job_item freshIds now2 (to_dynamodb_job_item now job)).analyses.map
        (fun a => a.status) = job.analyses.map (fun a => a.status) := by
  refine ⟨rfl, rfl, rfl, rfl, ?_, ?_⟩
  · simp only [from_dynamodb_job_item, to_dynamodb_job_item, List.map_map]
    have : ((fun a : DNBRAnalysis => a.id) ∘
        fun p : Nat × AnalysisSummary =>
          rebuildChild (freshIds p.1) now2 job.id job.generator_type p.2)
        = fun p : Nat × AnalysisSummary => freshIds p.1 := by
      funext p
      simp [rebuildChild, mkAnalysis]
    rw [this, enum_map_fst_comp, List.length_map]
  · simp only [from_dynamodb_job_item, to_dynamodb_job_item, List.map_map]
    have : ((fun a : DNBRAnalysis => a.status) ∘
        fun p : Nat × AnalysisSummary =>
          rebuildChild (freshIds p.1) now2 job.id job.generator_type p.2)
        = fun p : Nat × AnalysisSummary => p.2.status := by
      funext p
      simp [rebuildChild, mkAnalysis]
    rw [this, enum_map_snd_comp, List.map_map]
    rfl

/-! ## C9 — narrow status updates -/

/-- Reading an attribute after overwriting one: the overwritten
attribute holds the new value and every other attribute is untouched. -/
theorem getField_setField (it : Item) (f v g : String) :
    getField (setField it f v) g = if g = f then some v else getField it g := by
  induction it with
  | nil =>
    rcases eq_or_ne g f with h | h <;> simp [setField, getField, h, Ne.symm]
  | cons hd tl ih =>
    obtain ⟨g0, w0⟩ := hd
    rcases eq_or_ne g0 f with h0 | h0
    · subst h0
      rcases eq_or_ne g g0 with h | h <;> simp [setField, getField, h, Ne.symm]
    · rcases eq_or_ne g0 g with h | h
      · subst h
        simp [setField, getField, h0, Ne.symm, fun he : g0 = f => h0 he]
      · simp [setField, getField, h0, h, ih]

/-- Updating one key leaves every other key's item untouched. -/
theorem lookupItem_update_item_other (t : Table) (keyAttr keyVal : String)
    (sets : List (String × String)) (k : String) (hk : k ≠ keyVal) :
    lookupItem (update_item t keyAttr keyVal sets) k = lookupItem t k := by
  induction t with
  | nil => simp [update_item, lookupItem, Ne.symm hk]
  | cons hd tl ih =>
    obtain ⟨k0, it0⟩ := hd
    rcases eq_or_ne k0 keyVal with h | h
    · subst h
      simp [update_item, lookupItem, Ne.symm hk]
    · simp [update_item, lookupItem, h, ih]

/-- Updating a present key merges the field subset into its item. -/
theorem lookupItem_update_item_self (t : Table) (keyAttr keyVal : String)
    (sets : List (String × String)) (it : Item) (h : lookupItem t keyVal = some it) :
    lookupItem (update_item t keyAttr keyVal sets) keyVal = some (applySets it sets) := by
  induction t with
  | nil => simp [lookupItem] at h
  | cons hd tl ih =>
    obtain ⟨k0, it0⟩ := hd
    rcases eq_or_ne k0 keyVal with h0 | h0
    · subst h0
      simp [lookupItem] at h
      subst h
      simp [update_item, lookupItem]
    · simp [lookupItem, h0] at h
      simp [update_item, lookupItem, h0, ih h]

/-- The stored job item used to exhibit the ignored status argument. -/
def fixC9JobItem : Item :=
  [("job_id", "J9"), ("generator_type", "dummy"), ("analysis_count", "1"),
    ("updated_at", "T0")]

/-- A job table holding one record. -/
def fixC9Table : Table := [("J9", fixC9JobItem)]

/-- C9 counterexample: `update_job_status` refreshes only `updated_at`
and ignores the given status value — after the call the stored job
record still holds no status attribute at all, while the claim requires
the record's status field to equal the given value. -/
theorem C9_counterexample :
    lookupItem (update_job_status fixC9Table "J9" "COMPLETED" "T1") "J9"
      = some [("job_id", "J9"), ("generator_type", "dummy"), ("analysis_count", "1"),
          ("updated_at", "T1")]
    ∧ (getField [("job_id", "J9"), ("generator_type", "dummy"), ("analysis_count", "1"),
          ("updated_at", "T1")] "status") = none
    ∧ (none : Option String) ≠ some "COMPLETED" := by
  refine ⟨rfl, rfl, by decide⟩

/-- C9 (amended): `update_analysis_status` is a narrow partial update
that sets exactly the status field and the `updated_at` marker of the
addressed analysis record, leaves every other field and every other
record unchanged, and never reads the rest of the record;
`update_job_status`, however, refreshes only `updated_at` and ignores
the status argument entirely, leaving any status attribute of the job
record unchanged. -/
theorem C9_update_status_amended (t : Table) (rid status now : String) :
    (∀ it, lookupItem t rid = some it →
      lookupItem (update_analysis_status t rid status now) rid
          = some (setField (setField it "status" status) "updated_at" now)
      ∧ getField (setField (setField it "status" status) "updated_at" now) "status"
          = some status
      ∧ getField (setField (setField it "status" status) "updated_at" now) "updated_at"
          = some now
      ∧ (∀ f, f ≠ "status" → f ≠ "updated_at" →
          getField (setField (setField it "status" status) "updated_at" now) f
            = getField it f))
    ∧ (∀ k, k ≠ rid →
        lookupItem (update_analysis_status t rid status now) k = lookupItem t k)
    ∧ (∀ it, lookupItem t rid = some it →
      lookupItem (update_job_status t rid status now) rid
          = some (setField it "updated_at" now)
      ∧ getField (setField it "updated_at" now) "status" = getField it "status"
      ∧ (∀ f, f ≠ "updated_at" →
          getField (setField it "updated_at" now) f = getField it f))
    ∧ (∀ s2, update_job_status t rid status now = update_job_status t rid s2 now) := by
  refine ⟨?_, ?_, ?_, fun s2 => rfl⟩
  · intro it h
    refine ⟨?_, ?_, ?_, ?_⟩
    · exact lookupItem_update_item_self t "analysis_id" rid _ it h
    · simp [getField_setField]
    · simp [getField_setField]
    · intro f hf1 hf2
      simp [getField_setField, hf1, hf2]
  · intro k hk
    exact lookupItem_update_item_other t "analysis_id" rid _ k hk
  · intro it h
    refine ⟨?_, ?_, ?_⟩
    · exact lookupItem_update_item_self t "job_id" rid _ it h
    · simp [getField_setField]
    · intro f hf
      simp [getField_setField, hf]


/-! ## C2, C3, C4 — the publisher protocol -/

/-- The S3 key an action addresses. -/
def S3Action.key : S3Action → String
  | .uploadFile _ _ k => k
  | .putObject _ k => k

/-- Failures inside the try block are wrapped `PublishFailed` errors and
leave the analysis untouched. -/
theorem publishUploads_error (w : PublishWorld) (b : String) (a : DNBRAnalysis)
    (fm : SAFireMetadata) (cog : String) (e : PublishError)
    (h : (publishUploads w b a fm cog).result = Except.error e) :
    isPublishFailed e = true ∧ (publishUploads w b a fm cog).analysis = a := by
  unfold publishUploads at h ⊢
  split_ifs at h ⊢ <;> simp at h <;> (try subst h) <;> simp [isPublishFailed]

/-- A successful try block performed exactly the four S3 operations and
set the two published URLs. -/
theorem publishUploads_ok (w : PublishWorld) (b : String) (a : DNBRAnalysis)
    (fm : SAFireMetadata) (cog : String) (urls : List String)
    (h : (publishUploads w b a fm cog).result = Except.ok urls) :
    publishUploads w b a fm cog =
      ⟨Except.ok [pubUrl b (rasterKeyOf a fm), pubUrl b (vectorKeyOf a fm)],
        { a with published_dnbr_raster_url := some (pubUrl b (rasterKeyOf a fm)),
                 published_vector_url := some (pubUrl b (vectorKeyOf a fm)) },
        [S3Action.uploadFile cog b (rasterKeyOf a fm),
          S3Action.uploadFile (a.source_vector_url.getD "") b (vectorKeyOf a fm),
          S3Action.putObject b (stacItemKeyOf a fm),
          S3Action.putObject b collectionKey]⟩ := by
  unfold publishUploads at h ⊢
  split_ifs at h ⊢
  all_goals simp_all

/-- Once the six preconditions hold, a publish is the transcode followed
by the try block. -/
theorem publish_reduce (w : PublishWorld) (b : String) (a : DNBRAnalysis) (fm : SAFireMetadata)
    (h1 : a.status = "COMPLETED") (h2 : optTruthy a.get_aoi_id = true)
    (h3 : optTruthy a.raw_raster_url = true) (h4 : optTruthy a.source_vector_url = true)
    (h5 : a.raw_raster_url.getD "" ∈ w.reachable)
    (h6 : a.source_vector_url.getD "" ∈ w.reachable)
    (hfm : a.fire_metadata = some fm) :
    publish_analysis w b a =
      match w.cogResult (a.raw_raster_url.getD "") with
      | none => ⟨Except.error (PublishError.cogGenerationFailed (a.raw_raster_url.getD "")), a, []⟩
      | some cogPath => publishUploads w b a fm cogPath := by
  unfold publish_analysis
  simp only [h1, h2, h3, h4, hfm]
  simp [h5, h6]

/-- A failing precondition makes the publish return exactly that error
with no actions and an untouched analysis. -/
theorem publish_precond_hit (w : PublishWorld) (b : String) (a : DNBRAnalysis) (e : PublishError)
    (h : firstPrecondFailure w.reachable a = some e) :
    publish_analysis w b a = ⟨Except.error e, a, []⟩ ∧ isPrecondFailure e = true := by
  unfold firstPrecondFailure at h
  unfold publish_analysis
  split_ifs at h ⊢ <;> simp at h <;> (try subst h) <;> simp [isPrecondFailure]

/-- When no precondition fails, the metadata is present and the publish
is the transcode followed by the try block. -/
theorem publish_all_pass (w : PublishWorld) (b : String) (a : DNBRAnalysis)
    (h : firstPrecondFailure w.reachable a = none) :
    ∃ fm, a.fire_metadata = some fm ∧
      publish_analysis w b a =
        match w.cogResult (a.raw_raster_url.getD "") with
        | none => ⟨Except.error (PublishError.cogGenerationFailed (a.raw_raster_url.getD "")), a, []⟩
        | some cogPath => publishUploads w b a fm cogPath := by
  unfold firstPrecondFailure at h
  split_ifs at h with h1 h2 h3 h4 h5 h6
  all_goals try simp at h
  push_neg at h1 h2 h3 h4 h5 h6
  rcases hfm : a.fire_metadata with _ | fm
  · exfalso
    simp [DNBRAnalysis.get_aoi_id, hfm, optTruthy] at h2
  · exact ⟨fm, rfl, publish_reduce w b a fm h1 (by simpa using h2) (by simpa using h3)
      (by simpa using h4) h5 h6 hfm⟩

/-- Wrapped publish failures are not precondition failures. -/
theorem publishFailed_not_precond (e : PublishError) (h : isPublishFailed e = true) :
    isPrecondFailure e = false := by
  cases e <;> simp_all [isPublishFailed, isPrecondFailure]

/-- C2 (amended): the checks run in the order status, aoi id, raw-raster
presence, source-vector presence, raw-raster reachability, source-vector
reachability — presence of both locations is checked before reachability
of either — and the first failing check aborts the publish with its own
distinct error, zero S3 operations performed and the analysis untouched;
when every check passes, no precondition error is ever reported. -/
theorem C2_preconditions_amended (w : PublishWorld) (b : String) (a : DNBRAnalysis) :
    (∀ e, firstPrecondFailure w.reachable a = some e →
      (publish_analysis w b a).result = Except.error e
      ∧ (publish_analysis w b a).actions = []
      ∧ (publish_analysis w b a).analysis = a
      ∧ isPrecondFailure e = true)
    ∧ (firstPrecondFailure w.reachable a = none →
      ∀ e, (publish_analysis w b a).result = Except.error e → isPrecondFailure e = false) := by
  constructor
  · intro e he
    obtain ⟨heq, hpre⟩ := publish_precond_hit w b a e he
    rw [heq]
    exact ⟨rfl, rfl, rfl, hpre⟩
  · intro hn e herr
    obtain ⟨fm, hfm, heq⟩ := publish_all_pass w b a hn
    rw [heq] at herr
    rcases hcog : w.cogResult (a.raw_raster_url.getD "") with _ | cog
    · simp only [hcog] at herr
      simp at herr
      subst herr
      rfl
    · simp only [hcog] at herr
      exact publishFailed_not_precond e (publishUploads_error w b a fm cog e herr).1

/-- C4 (amended): every failed publish leaves the analysis — in
particular its two published-URL fields — exactly as it was; a failure
of the COG transcode surfaces as the unwrapped underlying error, not as
the wrapped `PublishFailed`; and every non-precondition failure is
either that unwrapped transcode error or a wrapped `PublishFailed`
carrying the failing S3 operation. -/
theorem C4_failure_amended (w : PublishWorld) (b : String) (a : DNBRAnalysis) :
    (∀ e, (publish_analysis w b a).result = Except.error e →
      (publish_analysis w b a).analysis = a)
    ∧ (firstPrecondFailure w.reachable a = none →
        w.cogResult (a.raw_raster_url.getD "") = none →
        (publish_analysis w b a).result
          = Except.error (PublishError.cogGenerationFailed (a.raw_raster_url.getD ""))
        ∧ isPublishFailed (PublishError.cogGenerationFailed (a.raw_raster_url.getD "")) = false)
    ∧ (∀ e, (publish_analysis w b a).result = Except.error e →
        isPrecondFailure e = false → isPublishFailed e = false →
        e = PublishError.cogGenerationFailed (a.raw_raster_url.getD "")) := by
  refine ⟨?_, ?_, ?_⟩
  · intro e herr
    rcases hpre : firstPrecondFailure w.reachable a with _ | e2
    · obtain ⟨fm, hfm, heq⟩ := publish_all_pass w b a hpre
      rw [heq] at herr ⊢
      rcases hcog : w.cogResult (a.raw_raster_url.getD "") with _ | cog
      · simp only [hcog]
      · simp only [hcog] at herr ⊢
        exact (publishUploads_error w b a fm cog e herr).2
    · obtain ⟨heq, _⟩ := publish_precond_hit w b a e2 hpre
      rw [heq]
  · intro hn hcog
    obtain ⟨fm, hfm, heq⟩ := publish_all_pass w b a hn
    rw [heq]
    simp [hcog, isPublishFailed]
  · intro e herr hp hw
    rcases hpre : firstPrecondFailure w.reachable a with _ | e2
    · obtain ⟨fm, hfm, heq⟩ := publish_all_pass w b a hpre
      rw [heq] at herr
      rcases hcog : w.cogResult (a.raw_raster_url.getD "") with _ | cog
      · simp only [hcog] at herr
        simp at herr
        exact herr.symm
      · simp only [hcog] at herr
        have := (publishUploads_error w b a fm cog e herr).1
        rw [this] at hw
        exact absurd hw (by simp)
    · obtain ⟨heq, hpree⟩ := publish_precond_hit w b a e2 hpre
      rw [heq] at herr
      simp at herr
      subst herr
      rw [hpree] at hp
      exact absurd hp (by simp)

/-- C3: for every publish that succeeds, both artifacts (and the STAC
item) are uploaded under the key prefix `jobs/<scopeId>/<aoiId>`, where
the scope id is the owning job's id when the back-reference holds a
non-empty job id and the analysis's own id when there is none; the
published analysis keeps the same prefix, so republishing the same
completed analysis addresses the same location. -/
theorem C3_storage_keys (w : PublishWorld) (b : String) (a : DNBRAnalysis)
    (fm : SAFireMetadata) (urls : List String)
    (hfm : a.fire_metadata = some fm)
    (hok : (publish_analysis w b a).result = Except.ok urls) :
    (publish_analysis w b a).actions.map S3Action.key
      = [jobsKeyBase a fm ++ "/" ++ fm.generate_filename "raster",
          jobsKeyBase a fm ++ "/" ++ fm.generate_filename "vector",
          stacItemKeyOf a fm, collectionKey]
    ∧ jobsKeyBase a fm = "jobs/" ++ scopeId a ++ "/" ++ generateAoiId fm
    ∧ (∀ jid, a.job_id = some jid → jid ≠ "" → scopeId a = jid)
    ∧ (a.job_id = none → scopeId a = a.id)
    ∧ jobsKeyBase ((publish_analysis w b a).analysis) fm = jobsKeyBase a fm := by
  rcases hpre : firstPrecondFailure w.reachable a with _ | e2
  · obtain ⟨fm2, hfm2, heq⟩ := publish_all_pass w b a hpre
    rw [hfm] at hfm2
    injection hfm2 with hfmeq
    subst hfmeq
    rw [heq] at hok ⊢
    rcases hcog : w.cogResult (a.raw_raster_url.getD "") with _ | cog
    · simp only [hcog] at hok
      simp at hok
    · simp only [hcog] at hok ⊢
      rw [publishUploads_ok w b a fm cog urls hok]
      refine ⟨?_, rfl, ?_, ?_, ?_⟩
      · simp [S3Action.key, rasterKeyOf, vectorKeyOf]
      · intro jid hjid hne
        simp [scopeId, hjid, hne]
      · intro hjid
        simp [scopeId, hjid]
      · simp [jobsKeyBase, scopeId]
  · obtain ⟨heq, _⟩ := publish_precond_hit w b a e2 hpre
    rw [heq] at hok
    simp at hok

/-- Fire metadata carrying an incident number, used by the publisher
fixtures. -/
def fixPubMeta : SAFireMetadata :=
  ⟨"Bushfire", "30/12/2019", [("INCIDENTNU", "201912036")]⟩

/-- A completed analysis whose raw raster is recorded but whose source
vector is missing. -/
def fixC2Analysis : DNBRAnalysis :=
  { id := "01AC2", generator_type := "dummy", fire_metadata := some fixPubMeta,
    status := "COMPLETED", created_at := "T0", job_id := none,
    raw_raster_url := some "raw.tif", source_vector_url := none,
    published_dnbr_raster_url := none, published_vector_url := none }

/-- A world where no path exists and every S3 operation fails. -/
def fixEmptyWorld : PublishWorld :=
  ⟨[], fun _ => none, fun _ => false, fun _ => false⟩

/-- A fully populated completed analysis owned by job JOB4. -/
def fixC4Analysis : DNBRAnalysis :=
  { id := "01AC4", generator_type := "dummy", fire_metadata := some fixPubMeta,
    status := "COMPLETED", created_at := "T0", job_id := some "JOB4",
    raw_raster_url := some "raw.tif", source_vector_url := some "fire.geojson",
    published_dnbr_raster_url := none, published_vector_url := none }

/-- A world where both files exist but the COG transcode raises. -/
def fixCogFailWorld : PublishWorld :=
  ⟨["raw.tif", "fire.geojson"], fun _ => none, fun _ => true, fun _ => true⟩

/-- A world where every operation succeeds. -/
def fixOKWorld : PublishWorld :=
  ⟨["raw.tif", "fire.geojson"], fun p => some (p ++ ".cog"), fun _ => true, fun _ => true⟩

/-- The publish-pending analysis used by the C2 witness. -/
def fixPendingAnalysis : DNBRAnalysis :=
  { fixC4Analysis with status := "PENDING" }

/-- C2 counterexample: on an analysis whose raw-raster location is
present but unreachable and whose source-vector location is missing, the
claimed order (precondition 3 — raw raster present and reachable —
before precondition 4) would report the unreachable raster, but the
source reports the missing source vector: presence of the source vector
is checked before reachability of the raster. -/
theorem C2_counterexample :
    (publish_analysis fixEmptyWorld "bucket" fixC2Analysis).result
      = Except.error PublishError.noSourceVector
    ∧ fixC2Analysis.status = "COMPLETED"
    ∧ optTruthy fixC2Analysis.get_aoi_id = true
    ∧ optTruthy fixC2Analysis.raw_raster_url = true
    ∧ fixC2Analysis.raw_raster_url.getD "" ∉ fixEmptyWorld.reachable
    ∧ PublishError.noSourceVector ≠ PublishError.rawRasterNotFound "raw.tif" := by
  refine ⟨rfl, rfl, by decide, by decide, by decide, by decide⟩

/-- C2 witness: the amended precondition theorem applied to a PENDING
analysis, whose publish fails with the status error, zero S3 actions and
an untouched analysis. -/
theorem C2_witness :
    firstPrecondFailure fixEmptyWorld.reachable fixPendingAnalysis
      = some (PublishError.statusNotCompleted "PENDING")
    ∧ (publish_analysis fixEmptyWorld "bucket" fixPendingAnalysis).result
        = Except.error (PublishError.statusNotCompleted "PENDING")
    ∧ (publish_analysis fixEmptyWorld "bucket" fixPendingAnalysis).actions = []
    ∧ (publish_analysis fixEmptyWorld "bucket" fixPendingAnalysis).analysis = fixPendingAnalysis
    ∧ isPrecondFailure (PublishError.statusNotCompleted "PENDING") = true := by
  have h := (C2_preconditions_amended fixEmptyWorld "bucket" fixPendingAnalysis).1
    (PublishError.statusNotCompleted "PENDING") rfl
  exact ⟨rfl, h.1, h.2.1, h.2.2.1, h.2.2.2⟩

/-- C4 counterexample: with both files reachable but a failing COG
transcode, the publish aborts with the unwrapped transcode error — not a
`PublishFailed` — and the published-URL fields are unchanged. -/
theorem C4_counterexample :
    (publish_analysis fixCogFailWorld "bucket" fixC4Analysis).result
      = Except.error (PublishError.cogGenerationFailed "raw.tif")
    ∧ isPublishFailed (PublishError.cogGenerationFailed "raw.tif") = false
    ∧ (publish_analysis fixCogFailWorld "bucket" fixC4Analysis).analysis.published_dnbr_raster_url
        = fixC4Analysis.published_dnbr_raster_url
    ∧ (publish_analysis fixCogFailWorld "bucket" fixC4Analysis).analysis.published_vector_url
        = fixC4Analysis.published_vector_url :=
  ⟨rfl, rfl, rfl, rfl⟩

/-- C4 witness: the amended failure theorem applied to the concrete
transcode-failing world. -/
theorem C4_witness :
    firstPrecondFailure fixCogFailWorld.reachable fixC4Analysis = none
    ∧ fixCogFailWorld.cogResult (fixC4Analysis.raw_raster_url.getD "") = none
    ∧ (publish_analysis fixCogFailWorld "bucket" fixC4Analysis).result
        = Except.error (PublishError.cogGenerationFailed (fixC4Analysis.raw_raster_url.getD ""))
    ∧ isPublishFailed
        (PublishError.cogGenerationFailed (fixC4Analysis.raw_raster_url.getD "")) = false := by
  have h := (C4_failure_amended fixCogFailWorld "bucket" fixC4Analysis).2.1 rfl rfl
  exact ⟨rfl, rfl, h.1, h.2⟩

/-- C3 witness: a successful publish of the job-owned analysis uploads
both artifacts under `jobs/JOB4/201912036`, and the updated analysis
derives the same prefix. -/
theorem C3_witness :
    fixC4Analysis.fire_metadata = some fixPubMeta
    ∧ (publish_analysis fixOKWorld "bucket" fixC4Analysis).result
        = Except.ok ["s3://bucket/jobs/JOB4/201912036/201912036_dnbr.cog.tif",
            "s3://bucket/jobs/JOB4/201912036/201912036_aoi.geojson"]
    ∧ (publish_analysis fixOKWorld "bucket" fixC4Analysis).actions.map S3Action.key
        = [jobsKeyBase fixC4Analysis fixPubMeta ++ "/" ++ fixPubMeta.generate_filename "raster",
            jobsKeyBase fixC4Analysis fixPubMeta ++ "/" ++ fixPubMeta.generate_filename "vector",
            stacItemKeyOf fixC4Analysis fixPubMeta, collectionKey]
    ∧ jobsKeyBase ((publish_analysis fixOKWorld "bucket" fixC4Analysis).analysis) fixPubMeta
        = jobsKeyBase fixC4Analysis fixPubMeta := by
  have h := C3_storage_keys fixOKWorld "bucket" fixC4Analysis fixPubMeta
    ["s3://bucket/jobs/JOB4/201912036/201912036_dnbr.cog.tif",
      "s3://bucket/jobs/JOB4/201912036/201912036_aoi.geojson"] rfl (by rfl)
  exact ⟨rfl, by rfl, h.1, h.2.2.2.2⟩

/-- C7 witness: the amended persistence theorem applied to the concrete
one-child job and fresh-id supply. -/
theorem C7_witness :
    (to_dynamodb_job_item "T1" fixC7Job).analyses = fixC7Job.analyses.map summarizeAnalysis
    ∧ (from_dynamodb_job_item fixC7Supply "T2" (to_dynamodb_job_item "T1" fixC7Job)).analyses.map
        (fun a => a.id) = (List.range fixC7Job.analyses.length).map fixC7Supply
    ∧ (from_dynamodb_job_item fixC7Supply "T2" (to_dynamodb_job_item "T1" fixC7Job)).analyses.map
        (fun a => a.status) = fixC7Job.analyses.map (fun a => a.status) := by
  have h := C7_job_persistence_amended "T1" "T2" fixC7Supply fixC7Job
  exact ⟨h.1, h.2.2.2.2.1, h.2.2.2.2.2⟩

/-- C9 witness: the amended update theorem applied to the concrete job
table: the analysis-path update sets status and the marker and keeps
other fields, and the job-path update does not depend on the status
argument. -/
theorem C9_witness :
    lookupItem fixC9Table "J9" = some fixC9JobItem
    ∧ lookupItem (update_analysis_status fixC9Table "J9" "RUNNING" "T2") "J9"
        = some (setField (setField fixC9JobItem "status" "RUNNING") "updated_at" "T2")
    ∧ getField (setField (setField fixC9JobItem "status" "RUNNING") "updated_at" "T2") "status"
        = some "RUNNING"
    ∧ getField (setField (setField fixC9JobItem "status" "RUNNING") "updated_at" "T2")
        "generator_type" = getField fixC9JobItem "generator_type"
    ∧ update_job_status fixC9Table "J9" "RUNNING" "T2"
        = update_job_status fixC9Table "J9" "COMPLETED" "T2" := by
  have h := C9_update_status_amended fixC9Table "J9" "RUNNING" "T2"
  refine ⟨rfl, (h.1 fixC9JobItem rfl).1, (h.1 fixC9JobItem rfl).2.1,
    (h.1 fixC9JobItem rfl).2.2.2 "generator_type" (by decide) (by decide),
    h.2.2.2 "COMPLETED"⟩

end FireSeverity
